import Mathlib

/-!
# Willow boot sequencer (`main/main.c`)

A shallow embedding of `init_spiffs_user`, `app_main` and the diagnostics
loop of `main/main.c`.  Every call into a collaborator (ESP-IDF, ESP-ADF,
the other Willow modules) is recorded as an `Event`; the values those
collaborators return are read from an environment `Env`.  A run of
`app_main` is the list of events it produces together with the control
point at which it stays.

Conventions of the embedding:

* `vTaskDelay(portMAX_DELAY)` is the source's "wait indefinitely": the run
  ends there with outcome `suspended`.
* `ESP_ERROR_CHECK(x)` with `x != ESP_OK` calls `abort()`: the run ends there
  with outcome `aborted`.
* `while (true)` is entered with outcome `diag_loop`; its iterations are given
  by `diag_step`.
* `init_spiffs_user` polls without bound, so it takes a fuel argument that
  bounds the number of polls; `none` means the fuel ran out while polling.
-/

namespace Willow

/-! ## Platform types and constants -/

/-- The ESP-IDF error code type (`esp_err_t`, a C `int`). -/
abbrev esp_err_t := Int

/-- The success code of `esp_err.h`. -/
def ESP_OK : esp_err_t := 0

/-- The generic failure code of `esp_err.h`. -/
def ESP_FAIL : esp_err_t := -1

/-- Base of the NVS error codes in `nvs.h`. -/
def ESP_ERR_NVS_BASE : esp_err_t := 0x1100

/-- The store was not initialised. -/
def ESP_ERR_NVS_NOT_INITIALIZED : esp_err_t := ESP_ERR_NVS_BASE + 0x01

/-- The namespace or key does not exist. -/
def ESP_ERR_NVS_NOT_FOUND : esp_err_t := ESP_ERR_NVS_BASE + 0x02

/-- The stored value does not fit the buffer. -/
def ESP_ERR_NVS_INVALID_LENGTH : esp_err_t := ESP_ERR_NVS_BASE + 0x0c

/-- The store has no empty page left. -/
def ESP_ERR_NVS_NO_FREE_PAGES : esp_err_t := ESP_ERR_NVS_BASE + 0x0d

/-- The store holds data in a newer format. -/
def ESP_ERR_NVS_NEW_VERSION_FOUND : esp_err_t := ESP_ERR_NVS_BASE + 0x10

/-- Modelled from the spec: the enum of the global `state` is declared in
`shared.h`, which is not among the sources.  The spec's data model gives the
ordered tag INIT, STORAGE_READY, RUNNING, FATAL; `app_main` names the first
two `STATE_INIT` and `STATE_NVS_OK` and compares them with `<`. -/
inductive willow_state
  | STATE_INIT
  | STATE_NVS_OK
  | RUNNING
  | FATAL
  deriving DecidableEq, Repr

/-- The integer value of a `willow_state` tag, in declaration order. -/
def willow_state.toNat : willow_state → Nat
  | .STATE_INIT => 0
  | .STATE_NVS_OK => 1
  | .RUNNING => 2
  | .FATAL => 3

/-- The two memory pools named in the diagnostics loop. -/
inductive Caps
  | MALLOC_CAP_INTERNAL
  | MALLOC_CAP_SPIRAM
  deriving DecidableEq, Repr

/-- The argument of `vTaskDelay`: a number of ticks, or `portMAX_DELAY`. -/
inductive Delay
  | ticks (n : Nat)
  | portMAX_DELAY
  deriving DecidableEq, Repr

/-- An argument of a log format string. -/
inductive Arg
  | err_name (code : esp_err_t)
  | int (n : Nat)
  | str (s : String)
  deriving DecidableEq, Repr

/-- One entry of `heap_task_totals_t`: the task name when the task handle is
non-NULL, and the two sizes. -/
structure TaskTotals where
  task : Option String
  size0 : Nat
  size1 : Nat
  deriving DecidableEq, Repr

/-! ## Events -/

/-- The observable actions of `main.c`: writes of the global `state`, log
lines, and calls into collaborators with the value they returned. -/
inductive Event
  | set_state (s : willow_state)
  | init_logging
  | ESP_LOGI (fmt : String) (args : List Arg)
  | ESP_LOGE (fmt : String) (args : List Arg)
  | esp_periph_set_init
  | init_system
  | periph_spiffs_init (label root : String)
  | esp_periph_start (r : esp_err_t)
  | periph_spiffs_is_mounted (r : Bool)
  | vTaskDelay (d : Delay)
  | config_parse
  | init_display
  | init_lvgl_display
  | init_ui
  | esp_netif_init (r : esp_err_t)
  | nvs_flash_init (r : esp_err_t)
  | nvs_flash_erase (r : esp_err_t)
  | abort
  | init_ethernet
  | nvs_open (ns : String) (r : esp_err_t)
  | nvs_get_str (ns key : String) (cap : Nat) (r : esp_err_t)
  | init_wifi (psk ssid : String)
  | init_was (r : esp_err_t)
  | ui_pr_err (title msg : String)
  | request_config
  | init_sntp
  | config_get_char (key : String) (r : String)
  | init_hass
  | free_command_endpoint
  | init_buttons
  | init_input_key_service
  | init_audio
  | init_lvgl_touch
  | init_display_timer
  | get_mac_address
  | esp_ota_get_app_description
  | esp_ota_mark_app_valid_cancel_rollback (r : esp_err_t)
  | reset_timer (r : esp_err_t)
  | error_check_failed (r : esp_err_t)
  | xTaskCreate (name : String)
  | printf (s : String)
  | printf_task (task : String) (size0 size1 : Nat)
  | heap_caps_print_heap_info (caps : Caps)
  | vTaskList (buf : String)
  | esp_timer_dump
  | heap_caps_get_minimum_free_size (caps : Caps) (r : Nat)
  | heap_caps_check_integrity_all (r : Bool)
  | heap_caps_get_per_task_info (n : Nat)
  deriving DecidableEq, Repr

/-! ## Environment -/

/-- Build-time switches and the values returned by the collaborators. -/
structure Env where
  /-- Build switch: wired instead of wireless network bring-up. -/
  CONFIG_WILLOW_ETHERNET : Bool
  /-- Build switch: start the runtime statistics task. -/
  CONFIG_WILLOW_DEBUG_RUNTIME_STATS : Bool
  /-- Build switch: per-region heap dump in the loop. -/
  CONFIG_WILLOW_DEBUG_MEM : Bool
  /-- Build switch: task list dump in the loop. -/
  CONFIG_WILLOW_DEBUG_TASKS : Bool
  /-- Build switch: timer dump in the loop. -/
  CONFIG_WILLOW_DEBUG_TIMERS : Bool
  /-- Build switch: per-task heap accounting in the loop. -/
  CONFIG_HEAP_TASK_TRACKING : Bool
  /-- Length of a tick in milliseconds (`portTICK_PERIOD_MS`). -/
  portTICK_PERIOD_MS : Nat
  /-- Result of `esp_periph_start` for the user SPIFFS peripheral. -/
  esp_periph_start : esp_err_t
  /-- Result of the n-th call of `periph_spiffs_is_mounted`. -/
  periph_spiffs_is_mounted : Nat → Bool
  /-- Value of the global `config_valid` after `config_parse`. -/
  config_valid : Bool
  /-- Value of the global display handle `ld` (`none` is NULL). -/
  ld : Option Nat
  /-- Result of `esp_netif_init`. -/
  esp_netif_init : esp_err_t
  /-- Result of the n-th call of `nvs_flash_init`. -/
  nvs_flash_init : Nat → esp_err_t
  /-- Result of `nvs_flash_erase`. -/
  nvs_flash_erase : esp_err_t
  /-- Result of `nvs_open` for a namespace. -/
  nvs_open : String → esp_err_t
  /-- Result and value of `nvs_get_str` for a namespace, key and capacity. -/
  nvs_get_str : String → String → Nat → esp_err_t × String
  /-- Result of `init_was`. -/
  init_was : esp_err_t
  /-- Value returned by `config_get_char("command_endpoint", ...)`. -/
  command_endpoint : String
  /-- Version string of the running image. -/
  app_version : String
  /-- Result of `esp_ota_mark_app_valid_cancel_rollback`. -/
  esp_ota_mark_app_valid_cancel_rollback : esp_err_t
  /-- Result of `reset_timer`. -/
  reset_timer : esp_err_t
  /-- Result of `heap_caps_get_minimum_free_size` in a given cycle. -/
  heap_caps_get_minimum_free_size : Nat → Caps → Nat
  /-- Result of `heap_caps_check_integrity_all` in a given cycle. -/
  heap_caps_check_integrity_all : Nat → Bool
  /-- Buffer filled by `vTaskList` in a given cycle. -/
  vTaskList : Nat → String
  /-- Totals written by `heap_caps_get_per_task_info` in a given cycle. -/
  heap_caps_get_per_task_info : Nat → List TaskTotals

/-- Where a run of `app_main` stays. -/
inductive Outcome
  | suspended
  | aborted
  | diag_loop
  deriving DecidableEq, Repr

/-- A run: the events produced, the control point reached, and the value of
the global `state` there. -/
structure Run where
  trace : List Event
  outcome : Outcome
  state : willow_state
  deriving DecidableEq, Repr

/-- Put the events of an earlier segment in front of a run. -/
def Run.after (pre : List Event) (r : Run) : Run :=
  { r with trace := pre ++ r.trace }

/-! ## `init_spiffs_user` -/

/-- The partition label of the user file system. -/
def PARTLABEL_USER : String := "user"

/-- The `while (!periph_spiffs_is_mounted(...))` loop of `init_spiffs_user`,
started at poll number `i`; `none` when `fuel` polls were not enough. -/
def mount_poll (e : Env) : (fuel i : Nat) → Option (List Event)
  | 0, _ => none
  | fuel + 1, i =>
    if e.periph_spiffs_is_mounted i then
      some [Event.periph_spiffs_is_mounted true]
    else
      (mount_poll e fuel (i + 1)).map fun rest =>
        [Event.periph_spiffs_is_mounted false,
         Event.ESP_LOGI "Waiting on SPIFFS mount..." [],
         Event.vTaskDelay (Delay.ticks (500 / e.portTICK_PERIOD_MS))] ++ rest

/-- The function `init_spiffs_user`: its return value and its events. -/
def init_spiffs_user (e : Env) (fuel : Nat) : Option (esp_err_t × List Event) :=
  let ret := e.esp_periph_start
  let start := [Event.periph_spiffs_init PARTLABEL_USER "/spiffs/user",
                Event.esp_periph_start ret]
  if ret ≠ ESP_OK then
    some (ret, start ++
      [Event.ESP_LOGE "failed to start spiffs user peripheral: %s" [Arg.err_name ret]])
  else
    (mount_poll e fuel 0).map fun polls =>
      (ret, start ++ polls ++ [Event.ESP_LOGI "SPIFFS mounted" []])

/-! ## `app_main` -/

/-- `ESP_ERROR_CHECK_WITHOUT_ABORT(x)`: the failure is printed, nothing else. -/
def error_check_without_abort (r : esp_err_t) : List Event :=
  if r ≠ ESP_OK then [Event.error_check_failed r] else []

/-- Lines 197-226: from `init_sntp` to the entry of the diagnostics loop. -/
def app_main_tail (e : Env) : List Event :=
  [Event.init_sntp,
   Event.config_get_char "command_endpoint" e.command_endpoint] ++
  (if e.command_endpoint = "Home Assistant" then [Event.init_hass] else []) ++
  [Event.free_command_endpoint,
   Event.init_buttons,
   Event.init_input_key_service,
   Event.init_audio,
   Event.init_lvgl_touch,
   Event.init_display_timer] ++
  (if e.CONFIG_WILLOW_ETHERNET then [] else [Event.get_mac_address]) ++
  [Event.esp_ota_get_app_description,
   Event.ESP_LOGI "Startup complete! Version: %s. Waiting for wake word."
     [Arg.str e.app_version],
   Event.esp_ota_mark_app_valid_cancel_rollback e.esp_ota_mark_app_valid_cancel_rollback] ++
  error_check_without_abort e.esp_ota_mark_app_valid_cancel_rollback ++
  [Event.reset_timer e.reset_timer] ++
  error_check_without_abort e.reset_timer ++
  (if e.CONFIG_WILLOW_DEBUG_RUNTIME_STATS then [Event.xTaskCreate "dbg_runtime_stats"] else [])

/-- The label `err_nvs` (lines 188-195) and what follows it, entered with the
current value of `state`. -/
def app_main_err_nvs (e : Env) (state : willow_state) : Run :=
  if state.toNat < willow_state.STATE_NVS_OK.toNat then
    { trace :=
        (if e.ld = none then
          [Event.ui_pr_err "Fatal error!" "Failed to read NVS partition."]
         else []) ++
        [Event.vTaskDelay Delay.portMAX_DELAY],
      outcome := Outcome.suspended,
      state := state }
  else
    { trace := app_main_tail e, outcome := Outcome.diag_loop, state := state }

/-- Lines 161-185: the WAS namespace, `init_was` and the configuration check.
`err` is the variable holding the result of the first `nvs_flash_init`. -/
def app_main_was (e : Env) (err : esp_err_t) : Run :=
  let ret := e.nvs_open "WAS"
  if ret ≠ ESP_OK then
    Run.after
      [Event.nvs_open "WAS" ret,
       Event.ESP_LOGE "failed to open NVS namespace WAS: %s" [Arg.err_name err]]
      (app_main_err_nvs e willow_state.STATE_INIT)
  else
    let ret := (e.nvs_get_str "WAS" "URL" 2048).1
    if ret ≠ ESP_OK then
      Run.after
        [Event.nvs_open "WAS" ESP_OK,
         Event.nvs_get_str "WAS" "URL" 2048 ret,
         Event.ESP_LOGE "failed to get WASL URL from NVS namespace WAS: %s" [Arg.err_name err]]
        (app_main_err_nvs e willow_state.STATE_INIT)
    else
      let ret := e.init_was
      let pre :=
        [Event.nvs_open "WAS" ESP_OK,
         Event.nvs_get_str "WAS" "URL" 2048 ESP_OK,
         Event.set_state willow_state.STATE_NVS_OK,
         Event.init_was ret] ++
        (if ret ≠ ESP_OK then
          [Event.ESP_LOGE "failed to initialize Willow Application Server connection" []] ++
          (if e.ld = none then
            [Event.ui_pr_err "Fatal error!" "WAS initialization failed."]
           else [])
         else [])
      if ¬ e.config_valid then
        { trace := pre ++ [Event.request_config, Event.vTaskDelay Delay.portMAX_DELAY],
          outcome := Outcome.suspended,
          state := willow_state.STATE_NVS_OK }
      else
        Run.after pre (app_main_err_nvs e willow_state.STATE_NVS_OK)

/-- Lines 133-159: network bring-up, wired or wireless. -/
def app_main_net (e : Env) (err : esp_err_t) : Run :=
  if e.CONFIG_WILLOW_ETHERNET then
    Run.after [Event.init_ethernet] (app_main_was e err)
  else
    let ret := e.nvs_open "WIFI"
    if ret ≠ ESP_OK then
      Run.after
        [Event.nvs_open "WIFI" ret,
         Event.ESP_LOGE "failed to open NVS namespace WIFI: %s" [Arg.err_name err]]
        (app_main_err_nvs e willow_state.STATE_INIT)
    else
      let psk := e.nvs_get_str "WIFI" "PSK" 64
      if psk.1 ≠ ESP_OK then
        Run.after
          [Event.nvs_open "WIFI" ESP_OK,
           Event.nvs_get_str "WIFI" "PSK" 64 psk.1,
           Event.ESP_LOGE "failed to get PSK from NVS namespace WIFI: %s" [Arg.err_name err]]
          (app_main_err_nvs e willow_state.STATE_INIT)
      else
        let ssid := e.nvs_get_str "WIFI" "SSID" 33
        if ssid.1 ≠ ESP_OK then
          Run.after
            [Event.nvs_open "WIFI" ESP_OK,
             Event.nvs_get_str "WIFI" "PSK" 64 ESP_OK,
             Event.nvs_get_str "WIFI" "SSID" 33 ssid.1,
             Event.ESP_LOGE "failed to get PSK from NVS namespace WIFI: %s" [Arg.err_name err]]
            (app_main_err_nvs e willow_state.STATE_INIT)
        else
          Run.after
            [Event.nvs_open "WIFI" ESP_OK,
             Event.nvs_get_str "WIFI" "PSK" 64 ESP_OK,
             Event.nvs_get_str "WIFI" "SSID" 33 ESP_OK,
             Event.init_wifi psk.2 ssid.2]
            (app_main_was e err)

/-- A run that ends in `abort()` after the given events. -/
def aborted_run (pre : List Event) : Run :=
  { trace := pre ++ [Event.abort],
    outcome := Outcome.aborted,
    state := willow_state.STATE_INIT }

/-- Lines 125-131: persistent store initialisation with its one recovery. -/
def app_main_nvs (e : Env) : Run :=
  let err := e.nvs_flash_init 0
  if err = ESP_ERR_NVS_NO_FREE_PAGES then
    if e.nvs_flash_erase ≠ ESP_OK then
      aborted_run [Event.nvs_flash_init err, Event.nvs_flash_erase e.nvs_flash_erase]
    else if e.nvs_flash_init 1 ≠ ESP_OK then
      aborted_run [Event.nvs_flash_init err, Event.nvs_flash_erase ESP_OK,
                   Event.nvs_flash_init (e.nvs_flash_init 1)]
    else
      Run.after
        [Event.nvs_flash_init err, Event.nvs_flash_erase ESP_OK, Event.nvs_flash_init ESP_OK]
        (app_main_net e err)
  else
    Run.after [Event.nvs_flash_init err] (app_main_net e err)

/-- Lines 118-123 and what follows: everything after `init_spiffs_user`. -/
def app_main_boot (e : Env) : Run :=
  let pre :=
    [Event.config_parse, Event.init_display, Event.init_lvgl_display, Event.init_ui,
     Event.esp_netif_init e.esp_netif_init]
  if e.esp_netif_init ≠ ESP_OK then
    aborted_run pre
  else
    Run.after pre (app_main_nvs e)

/-- The function `app_main` up to the control point where it stays.  The
value returned by `init_spiffs_user` is discarded, as in the source. -/
def app_main (e : Env) (fuel : Nat) : Option Run :=
  (init_spiffs_user e fuel).map fun spiffs =>
    Run.after
      ([Event.set_state willow_state.STATE_INIT,
        Event.init_logging,
        Event.ESP_LOGI "Starting up! Please wait..." [],
        Event.esp_periph_set_init,
        Event.init_system] ++ spiffs.2)
      (app_main_boot e)

/-! ## The diagnostics loop -/

/-- The function `esp_dump_per_task_heap_info` in cycle `n`. -/
def esp_dump_per_task_heap_info (e : Env) (n : Nat) : List Event :=
  let totals := e.heap_caps_get_per_task_info n
  [Event.heap_caps_get_per_task_info totals.length] ++
  totals.map (fun t =>
    Event.printf_task (t.task.getD "Pre-Scheduler allocs") t.size0 t.size1) ++
  [Event.printf "\n\n"]

/-- The switch-gated dumps at the start of the loop body (lines 229-242). -/
def diag_debug_dumps (e : Env) (n : Nat) : List Event :=
  (if e.CONFIG_WILLOW_DEBUG_MEM then
    [Event.printf "MALLOC_CAP_INTERNAL:\n",
     Event.heap_caps_print_heap_info Caps.MALLOC_CAP_INTERNAL,
     Event.printf "MALLOC_CAP_SPIRAM:\n",
     Event.heap_caps_print_heap_info Caps.MALLOC_CAP_SPIRAM]
   else []) ++
  (if e.CONFIG_WILLOW_DEBUG_TASKS then
    [Event.vTaskList (e.vTaskList n), Event.printf (e.vTaskList n ++ "\n")]
   else []) ++
  (if e.CONFIG_WILLOW_DEBUG_TIMERS then [Event.esp_timer_dump] else [])

/-- The unconditional part of the loop body (lines 243-247). -/
def diag_core (e : Env) (n : Nat) : List Event :=
  [Event.heap_caps_get_minimum_free_size Caps.MALLOC_CAP_INTERNAL
     (e.heap_caps_get_minimum_free_size n Caps.MALLOC_CAP_INTERNAL),
   Event.ESP_LOGI "min_free_iram: %d"
     [Arg.int (e.heap_caps_get_minimum_free_size n Caps.MALLOC_CAP_INTERNAL)],
   Event.heap_caps_get_minimum_free_size Caps.MALLOC_CAP_SPIRAM
     (e.heap_caps_get_minimum_free_size n Caps.MALLOC_CAP_SPIRAM),
   Event.ESP_LOGI "min_free_spiram: %d"
     [Arg.int (e.heap_caps_get_minimum_free_size n Caps.MALLOC_CAP_SPIRAM)],
   Event.vTaskDelay (Delay.ticks (5000 / e.portTICK_PERIOD_MS)),
   Event.ESP_LOGI "checking heap integrity" [],
   Event.heap_caps_check_integrity_all (e.heap_caps_check_integrity_all n)]

/-- The body of `while (true)` in cycle `n` (lines 229-250). -/
def diag_body (e : Env) (n : Nat) : List Event :=
  diag_debug_dumps e n ++ diag_core e n ++
  (if e.CONFIG_HEAP_TASK_TRACKING then esp_dump_per_task_heap_info e n else [])

/-- Control points around the loop: at its head, or past it. -/
inductive LoopPc
  | head
  | exited
  deriving DecidableEq, Repr

/-- State of the diagnostics loop: the control point, the number of completed
cycles, the events of the last completed cycle and all events so far. -/
structure LoopState where
  pc : LoopPc
  cycles : Nat
  last : List Event
  trace : List Event
  deriving DecidableEq, Repr

/-- The loop state on entry. -/
def diag_init : LoopState :=
  { pc := LoopPc.head, cycles := 0, last := [], trace := [] }

/-- One step of `while (true) { body }`: at the head the condition `true` is
tested and the body runs; the body has no `break`, `return` or halt, so
control is back at the head. -/
def diag_step (e : Env) (s : LoopState) : LoopState :=
  match s.pc with
  | LoopPc.head =>
    if true then
      { pc := LoopPc.head,
        cycles := s.cycles + 1,
        last := diag_body e s.cycles,
        trace := s.trace ++ diag_body e s.cycles }
    else
      { s with pc := LoopPc.exited }
  | LoopPc.exited => s

/-- The loop state after `n` steps. -/
def diag_run (e : Env) : Nat → LoopState
  | 0 => diag_init
  | n + 1 => diag_step e (diag_run e n)

/-! ## Observations on events and runs -/

/-- A credential-store read that failed: `nvs_open` or `nvs_get_str` returning
something other than `ESP_OK`. -/
def Event.failed_cred_read : Event → Bool
  | Event.nvs_open _ r => decide (r ≠ ESP_OK)
  | Event.nvs_get_str _ _ _ r => decide (r ≠ ESP_OK)
  | _ => false

/-- A failed read of the WIFI namespace or of one of its keys. -/
def Event.failed_wifi_read : Event → Bool
  | Event.nvs_open ns r => decide (ns = "WIFI" ∧ r ≠ ESP_OK)
  | Event.nvs_get_str ns _ _ r => decide (ns = "WIFI" ∧ r ≠ ESP_OK)
  | _ => false

/-- A call of `init_was`. -/
def Event.is_init_was : Event → Bool
  | Event.init_was _ => true
  | _ => false

/-- A call of `init_wifi`. -/
def Event.is_init_wifi : Event → Bool
  | Event.init_wifi _ _ => true
  | _ => false

/-- A call of `request_config`. -/
def Event.is_request_config : Event → Bool
  | Event.request_config => true
  | _ => false

/-- A call of `ui_pr_err`. -/
def Event.is_ui_pr_err : Event → Bool
  | Event.ui_pr_err _ _ => true
  | _ => false

/-- An `ESP_LOGE` line. -/
def Event.is_ESP_LOGE : Event → Bool
  | Event.ESP_LOGE _ _ => true
  | _ => false

/-- A call made after the label `err_nvs` has been passed (lines 197-226). -/
def Event.is_later_stage : Event → Bool
  | Event.init_sntp => true
  | Event.config_get_char _ _ => true
  | Event.init_hass => true
  | Event.free_command_endpoint => true
  | Event.init_buttons => true
  | Event.init_input_key_service => true
  | Event.init_audio => true
  | Event.init_lvgl_touch => true
  | Event.init_display_timer => true
  | Event.get_mac_address => true
  | Event.esp_ota_get_app_description => true
  | Event.esp_ota_mark_app_valid_cancel_rollback _ => true
  | Event.reset_timer _ => true
  | Event.xTaskCreate _ => true
  | _ => false

/-- The stages of the boot pipeline. -/
inductive Stage
  | init_system
  | esp_periph_set_init
  | init_spiffs_user
  | config_parse
  | init_display
  | init_lvgl_display
  | init_ui
  | esp_netif_init
  | nvs_flash_init
  | network_bringup
  | url_retrieval
  | init_was
  | init_sntp
  | endpoint_selection
  | init_buttons
  | init_input_key_service
  | init_audio
  | init_lvgl_touch
  | init_display_timer
  | mark_app_valid
  | reset_timer
  deriving DecidableEq, Repr

/-- The stage an event starts, if any.  `init_spiffs_user` is entered with
`periph_spiffs_init`; network bring-up is `init_wifi` or `init_ethernet`; URL
retrieval is the read of the key URL; endpoint selection is the read of
`command_endpoint`. -/
def Event.stage : Event → Option Stage
  | Event.init_system => some Stage.init_system
  | Event.esp_periph_set_init => some Stage.esp_periph_set_init
  | Event.periph_spiffs_init _ _ => some Stage.init_spiffs_user
  | Event.config_parse => some Stage.config_parse
  | Event.init_display => some Stage.init_display
  | Event.init_lvgl_display => some Stage.init_lvgl_display
  | Event.init_ui => some Stage.init_ui
  | Event.esp_netif_init _ => some Stage.esp_netif_init
  | Event.nvs_flash_init _ => some Stage.nvs_flash_init
  | Event.init_wifi _ _ => some Stage.network_bringup
  | Event.init_ethernet => some Stage.network_bringup
  | Event.nvs_get_str _ "URL" _ _ => some Stage.url_retrieval
  | Event.init_was _ => some Stage.init_was
  | Event.init_sntp => some Stage.init_sntp
  | Event.config_get_char _ _ => some Stage.endpoint_selection
  | Event.init_buttons => some Stage.init_buttons
  | Event.init_input_key_service => some Stage.init_input_key_service
  | Event.init_audio => some Stage.init_audio
  | Event.init_lvgl_touch => some Stage.init_lvgl_touch
  | Event.init_display_timer => some Stage.init_display_timer
  | Event.esp_ota_mark_app_valid_cancel_rollback _ => some Stage.mark_app_valid
  | Event.reset_timer _ => some Stage.reset_timer
  | _ => none

/-- The stages of a trace, in order. -/
def stages (tr : List Event) : List Stage :=
  tr.filterMap Event.stage

/-- The value an event writes to the global `state`, if it is a write. -/
def Event.state_write : Event → Option willow_state
  | Event.set_state s => some s
  | _ => none

/-- The values written to the global `state`, in order. -/
def state_writes (tr : List Event) : List willow_state :=
  tr.filterMap Event.state_write

/-- The credential-store reads that a build performs when all succeed. -/
def successful_reads (e : Env) : List Event :=
  (if e.CONFIG_WILLOW_ETHERNET then []
   else [Event.nvs_open "WIFI" ESP_OK,
         Event.nvs_get_str "WIFI" "PSK" 64 ESP_OK,
         Event.nvs_get_str "WIFI" "SSID" 33 ESP_OK]) ++
  [Event.nvs_open "WAS" ESP_OK, Event.nvs_get_str "WAS" "URL" 2048 ESP_OK]

/-! ## Concrete environments -/

/-- A wireless build in which every collaborator succeeds, the configuration
is valid, a display exists and the file system is mounted at the second
poll. -/
def env_ok : Env :=
  { CONFIG_WILLOW_ETHERNET := false
    CONFIG_WILLOW_DEBUG_RUNTIME_STATS := false
    CONFIG_WILLOW_DEBUG_MEM := false
    CONFIG_WILLOW_DEBUG_TASKS := false
    CONFIG_WILLOW_DEBUG_TIMERS := false
    CONFIG_HEAP_TASK_TRACKING := false
    portTICK_PERIOD_MS := 10
    esp_periph_start := ESP_OK
    periph_spiffs_is_mounted := fun n => decide (1 ≤ n)
    config_valid := true
    ld := some 1
    esp_netif_init := ESP_OK
    nvs_flash_init := fun _ => ESP_OK
    nvs_flash_erase := ESP_OK
    nvs_open := fun _ => ESP_OK
    nvs_get_str := fun _ key _ => (ESP_OK, key)
    init_was := ESP_OK
    command_endpoint := "Home Assistant"
    app_version := "0.1"
    esp_ota_mark_app_valid_cancel_rollback := ESP_OK
    reset_timer := ESP_OK
    heap_caps_get_minimum_free_size := fun _ _ => 1000
    heap_caps_check_integrity_all := fun _ => true
    vTaskList := fun _ => ""
    heap_caps_get_per_task_info := fun _ => [] }

/-- As `env_ok`, but the namespace WIFI does not exist. -/
def env_no_wifi_namespace : Env :=
  { env_ok with
    nvs_open := fun ns => if ns = "WIFI" then ESP_ERR_NVS_NOT_FOUND else ESP_OK }

/-- As `env_ok`, but the configuration is flagged invalid and the namespace
WIFI does not exist. -/
def env_invalid_no_wifi : Env :=
  { env_no_wifi_namespace with config_valid := false }

/-- As `env_ok`, but the configuration is flagged invalid. -/
def env_invalid : Env :=
  { env_ok with config_valid := false }

/-- As `env_ok`, but `init_was` fails (the display exists: `ld` is not NULL). -/
def env_was_fail : Env :=
  { env_ok with init_was := ESP_FAIL }

/-- As `env_was_fail`, but no display exists (`ld` is NULL). -/
def env_was_fail_no_display : Env :=
  { env_was_fail with ld := none }

/-- As `env_no_wifi_namespace`, but no display exists (`ld` is NULL). -/
def env_no_wifi_no_display : Env :=
  { env_no_wifi_namespace with ld := none }

/-- As `env_ok`, but the user SPIFFS peripheral fails to start. -/
def env_mount_fail : Env :=
  { env_ok with esp_periph_start := ESP_FAIL }

/-- As `env_ok`, but the first `nvs_flash_init` reports no free pages. -/
def env_no_free_pages : Env :=
  { env_ok with
    nvs_flash_init := fun n => if n = 0 then ESP_ERR_NVS_NO_FREE_PAGES else ESP_OK }

/-- A wired build whose store cannot be initialised: `nvs_flash_init` reports
a newer format, and every `nvs_open` reports an uninitialised store. -/
def env_wired_store_broken : Env :=
  { env_ok with
    CONFIG_WILLOW_ETHERNET := true
    nvs_flash_init := fun _ => ESP_ERR_NVS_NEW_VERSION_FOUND
    nvs_open := fun _ => ESP_ERR_NVS_NOT_INITIALIZED }

/-- The wireless build with the same broken store. -/
def env_wireless_store_broken : Env :=
  { env_wired_store_broken with CONFIG_WILLOW_ETHERNET := false }

/-! ## Segments of a run

The events of the straight-line pieces of `app_main`, named so that the runs
of the different scenarios can be written down. -/

/-- Lines 107-116: the events before `init_spiffs_user`. -/
def head_events : List Event :=
  [Event.set_state willow_state.STATE_INIT,
   Event.init_logging,
   Event.ESP_LOGI "Starting up! Please wait..." [],
   Event.esp_periph_set_init,
   Event.init_system]

/-- Lines 118-123. -/
def boot_events (e : Env) : List Event :=
  [Event.config_parse, Event.init_display, Event.init_lvgl_display, Event.init_ui,
   Event.esp_netif_init e.esp_netif_init]

/-- Lines 125-131 when no `ESP_ERROR_CHECK` aborts. -/
def store_events (e : Env) : List Event :=
  if e.nvs_flash_init 0 = ESP_ERR_NVS_NO_FREE_PAGES then
    [Event.nvs_flash_init (e.nvs_flash_init 0), Event.nvs_flash_erase ESP_OK,
     Event.nvs_flash_init ESP_OK]
  else [Event.nvs_flash_init (e.nvs_flash_init 0)]

/-- Lines 189-194: the halt at `err_nvs`. -/
def halt_events (e : Env) : List Event :=
  (if e.ld = none then [Event.ui_pr_err "Fatal error!" "Failed to read NVS partition."]
   else []) ++ [Event.vTaskDelay Delay.portMAX_DELAY]

/-- Lines 133-159 when every read succeeds. -/
def net_events (e : Env) : List Event :=
  if e.CONFIG_WILLOW_ETHERNET then [Event.init_ethernet]
  else
    [Event.nvs_open "WIFI" ESP_OK,
     Event.nvs_get_str "WIFI" "PSK" 64 ESP_OK,
     Event.nvs_get_str "WIFI" "SSID" 33 ESP_OK,
     Event.init_wifi (e.nvs_get_str "WIFI" "PSK" 64).2 (e.nvs_get_str "WIFI" "SSID" 33).2]

/-- Lines 161-179 when both reads succeed. -/
def was_events (e : Env) : List Event :=
  [Event.nvs_open "WAS" ESP_OK,
   Event.nvs_get_str "WAS" "URL" 2048 ESP_OK,
   Event.set_state willow_state.STATE_NVS_OK,
   Event.init_was e.init_was] ++
  (if e.init_was ≠ ESP_OK then
    [Event.ESP_LOGE "failed to initialize Willow Application Server connection" []] ++
    (if e.ld = none then [Event.ui_pr_err "Fatal error!" "WAS initialization failed."] else [])
   else [])

/-- Neither `esp_netif_init` nor the store initialisation aborts. -/
def store_ok (e : Env) : Prop :=
  e.esp_netif_init = ESP_OK ∧
  (e.nvs_flash_init 0 = ESP_ERR_NVS_NO_FREE_PAGES →
    e.nvs_flash_erase = ESP_OK ∧ e.nvs_flash_init 1 = ESP_OK)

/-- The reads of the WIFI namespace succeed (nothing to read in a wired build). -/
def wifi_ok (e : Env) : Prop :=
  e.CONFIG_WILLOW_ETHERNET = false →
    e.nvs_open "WIFI" = ESP_OK ∧ (e.nvs_get_str "WIFI" "PSK" 64).1 = ESP_OK ∧
    (e.nvs_get_str "WIFI" "SSID" 33).1 = ESP_OK

/-- The reads of the WAS namespace succeed. -/
def was_ok (e : Env) : Prop :=
  e.nvs_open "WAS" = ESP_OK ∧ (e.nvs_get_str "WAS" "URL" 2048).1 = ESP_OK

/-- No stage of the pipeline fails. -/
def no_failure (e : Env) : Prop :=
  e.esp_periph_start = ESP_OK ∧ e.esp_netif_init = ESP_OK ∧ e.nvs_flash_init 0 = ESP_OK ∧
  wifi_ok e ∧ was_ok e ∧ e.init_was = ESP_OK ∧
  e.esp_ota_mark_app_valid_cancel_rollback = ESP_OK ∧ e.reset_timer = ESP_OK

/-- The events of `k` unsuccessful polls of the mount status. -/
def waiting_events (e : Env) : Nat → List Event
  | 0 => []
  | k + 1 =>
    [Event.periph_spiffs_is_mounted false,
     Event.ESP_LOGI "Waiting on SPIFFS mount..." [],
     Event.vTaskDelay (Delay.ticks (500 / e.portTICK_PERIOD_MS))] ++ waiting_events e k

/-- Events that `init_spiffs_user` can produce. -/
def Event.is_spiffs_event : Event → Bool
  | Event.periph_spiffs_init _ _ => true
  | Event.esp_periph_start _ => true
  | Event.periph_spiffs_is_mounted _ => true
  | Event.ESP_LOGI _ _ => true
  | Event.ESP_LOGE _ _ => true
  | Event.vTaskDelay (Delay.ticks _) => true
  | _ => false

/-- A call of `nvs_flash_init` or `nvs_flash_erase`. -/
def Event.is_store_call : Event → Bool
  | Event.nvs_flash_init _ => true
  | Event.nvs_flash_erase _ => true
  | _ => false

/-- The calls of `nvs_flash_init` and `nvs_flash_erase` in a trace, in order. -/
def store_calls (tr : List Event) : List Event :=
  tr.filter Event.is_store_call

/-- The result of a call of `nvs_flash_init`. -/
def Event.flash_init_result : Event → Option esp_err_t
  | Event.nvs_flash_init r => some r
  | _ => none

/-- The result of the first `nvs_flash_init` of a trace. -/
def first_nvs_flash_init (tr : List Event) : Option esp_err_t :=
  (tr.filterMap Event.flash_init_result).head?

/-- The events of the unconditional part of a diagnostics cycle. -/
def Event.is_diag_core : Event → Bool
  | Event.heap_caps_get_minimum_free_size _ _ => true
  | Event.ESP_LOGI _ _ => true
  | Event.vTaskDelay _ => true
  | Event.heap_caps_check_integrity_all _ => true
  | _ => false

/-- The pipeline order stated for the boot sequencer, with `init_system`
ahead of `esp_periph_set_init`. -/
def stated_pipeline : List Stage :=
  [Stage.init_system, Stage.esp_periph_set_init, Stage.init_spiffs_user,
   Stage.config_parse, Stage.init_display, Stage.init_lvgl_display, Stage.init_ui,
   Stage.esp_netif_init, Stage.nvs_flash_init, Stage.network_bringup,
   Stage.url_retrieval, Stage.init_was, Stage.init_sntp, Stage.endpoint_selection,
   Stage.init_buttons, Stage.init_input_key_service, Stage.init_audio,
   Stage.init_lvgl_touch, Stage.init_display_timer, Stage.mark_app_valid,
   Stage.reset_timer]

/-- The pipeline order of `app_main`. -/
def source_pipeline : List Stage :=
  [Stage.esp_periph_set_init, Stage.init_system, Stage.init_spiffs_user,
   Stage.config_parse, Stage.init_display, Stage.init_lvgl_display, Stage.init_ui,
   Stage.esp_netif_init, Stage.nvs_flash_init, Stage.network_bringup,
   Stage.url_retrieval, Stage.init_was, Stage.init_sntp, Stage.endpoint_selection,
   Stage.init_buttons, Stage.init_input_key_service, Stage.init_audio,
   Stage.init_lvgl_touch, Stage.init_display_timer, Stage.mark_app_valid,
   Stage.reset_timer]

/-- Events that lines 197-226 can produce. -/
def Event.is_tail_event : Event → Bool
  | Event.ESP_LOGI _ _ => true
  | Event.error_check_failed _ => true
  | ev => ev.is_later_stage

/-- The run of `app_main` in an environment where it returns one. -/
def the_run (e : Env) (fuel : Nat) : Run :=
  (app_main e fuel).getD (aborted_run [])

/-- Two runs make the same progress: same stages in the same order, same
calls after the label `err_nvs`, same control point and same `state`. -/
def same_progress (r₁ r₂ : Run) : Prop :=
  stages r₁.trace = stages r₂.trace ∧
  r₁.trace.filter Event.is_later_stage = r₂.trace.filter Event.is_later_stage ∧
  r₁.outcome = r₂.outcome ∧ r₁.state = r₂.state

/-- Two environments that differ at most in the result of `init_was`. -/
def differ_in_init_was (e₁ e₂ : Env) : Prop :=
  e₁ = { e₂ with init_was := e₁.init_was }

/-! # Lemmas -/

/-! ## The mount poll -/

theorem mount_poll_shape (e : Env) (fuel : Nat) :
    ∀ i tr, mount_poll e fuel i = some tr →
      ∃ k, tr = waiting_events e k ++ [Event.periph_spiffs_is_mounted true] ∧
        (∀ j, j < k → e.periph_spiffs_is_mounted (i + j) = false) ∧
        e.periph_spiffs_is_mounted (i + k) = true := by
  induction fuel with
  | zero => intro i tr h; simp [mount_poll] at h
  | succ n ih =>
    intro i tr h
    unfold mount_poll at h
    split at h
    · rename_i hm
      simp only [Option.some.injEq] at h
      exact ⟨0, by simp [waiting_events, ← h], by simp, by simpa using hm⟩
    · rename_i hm
      simp only [Option.map_eq_some'] at h
      obtain ⟨rest, hrest, rfl⟩ := h
      obtain ⟨k, rfl, hlt, hk⟩ := ih (i + 1) rest hrest
      refine ⟨k + 1, by simp [waiting_events], ?_, ?_⟩
      · intro j hj
        cases j with
        | zero => simpa using hm
        | succ j =>
          have := hlt j (by omega)
          rwa [show i + (j + 1) = i + 1 + j by omega]
      · rwa [show i + (k + 1) = i + 1 + k by omega]

theorem mount_poll_total (e : Env) (k : Nat) :
    ∀ fuel i, e.periph_spiffs_is_mounted (i + k) = true → k < fuel →
      ∃ tr, mount_poll e fuel i = some tr := by
  induction k with
  | zero =>
    intro fuel i hm hf
    cases fuel with
    | zero => omega
    | succ n =>
      have h0 : e.periph_spiffs_is_mounted i = true := by simpa using hm
      simp [mount_poll, h0]
  | succ k ih =>
    intro fuel i hm hf
    cases fuel with
    | zero => omega
    | succ n =>
      by_cases h0 : e.periph_spiffs_is_mounted i = true
      · simp [mount_poll, h0]
      · obtain ⟨tr, htr⟩ :=
          ih n (i + 1) (by rwa [show i + 1 + k = i + (k + 1) by omega]) (by omega)
        simp [mount_poll, h0, htr]

theorem waiting_events_spiffs (e : Env) (k : Nat) :
    ∀ ev ∈ waiting_events e k, ev.is_spiffs_event = true := by
  induction k with
  | zero => simp [waiting_events]
  | succ k ih =>
    intro ev hev
    simp only [waiting_events, List.cons_append, List.nil_append, List.mem_cons] at hev
    rcases hev with rfl | rfl | rfl | hev
    · rfl
    · rfl
    · rfl
    · exact ih ev hev

/-- Shape of a returning call of `init_spiffs_user`. -/
theorem init_spiffs_user_shape (e : Env) (fuel : Nat) (sp : esp_err_t × List Event)
    (h : init_spiffs_user e fuel = some sp) :
    (e.esp_periph_start ≠ ESP_OK ∧ sp = (e.esp_periph_start,
        [Event.periph_spiffs_init PARTLABEL_USER "/spiffs/user",
         Event.esp_periph_start e.esp_periph_start,
         Event.ESP_LOGE "failed to start spiffs user peripheral: %s"
           [Arg.err_name e.esp_periph_start]])) ∨
    (e.esp_periph_start = ESP_OK ∧ ∃ k, sp = (ESP_OK,
        [Event.periph_spiffs_init PARTLABEL_USER "/spiffs/user",
         Event.esp_periph_start ESP_OK] ++ waiting_events e k ++
        [Event.periph_spiffs_is_mounted true, Event.ESP_LOGI "SPIFFS mounted" []]) ∧
        (∀ j, j < k → e.periph_spiffs_is_mounted j = false) ∧
        e.periph_spiffs_is_mounted k = true) := by
  unfold init_spiffs_user at h
  simp only at h
  split at h
  · rename_i hs
    left
    simp only [Option.some.injEq] at h
    exact ⟨hs, by rw [← h]; rfl⟩
  · rename_i hs
    right
    simp only [ne_eq, not_not] at hs
    simp only [Option.map_eq_some'] at h
    obtain ⟨polls, hp, rfl⟩ := h
    obtain ⟨k, rfl, hlt, hk⟩ := mount_poll_shape e fuel 0 polls hp
    refine ⟨hs, k, ?_, ?_, ?_⟩
    · simp [hs]
    · intro j hj; simpa using hlt j hj
    · simpa using hk

theorem init_spiffs_user_events (e : Env) (fuel : Nat) (sp : esp_err_t × List Event)
    (h : init_spiffs_user e fuel = some sp) : ∀ ev ∈ sp.2, ev.is_spiffs_event = true := by
  rcases init_spiffs_user_shape e fuel sp h with ⟨_, rfl⟩ | ⟨_, k, rfl, _, _⟩
  · intro ev hev
    simp only [List.mem_cons, List.mem_singleton] at hev
    simp at hev
    rcases hev with rfl | rfl | rfl <;> rfl
  · intro ev hev
    simp only [List.cons_append, List.nil_append, List.mem_cons, List.mem_append,
      List.mem_singleton, List.append_assoc] at hev
    simp at hev
    rcases hev with rfl | rfl | hev | rfl | rfl
    · rfl
    · rfl
    · exact waiting_events_spiffs e k ev hev
    · rfl
    · rfl

theorem stages_waiting_events (e : Env) (k : Nat) : stages (waiting_events e k) = [] := by
  induction k with
  | zero => rfl
  | succ k ih => simpa [waiting_events, stages, Event.stage] using ih

theorem init_spiffs_user_stages (e : Env) (fuel : Nat) (sp : esp_err_t × List Event)
    (h : init_spiffs_user e fuel = some sp) : stages sp.2 = [Stage.init_spiffs_user] := by
  rcases init_spiffs_user_shape e fuel sp h with ⟨_, rfl⟩ | ⟨_, k, rfl, _, _⟩
  · simp [stages, Event.stage]
  · have := stages_waiting_events e k
    simp only [stages] at this
    simp [stages, Event.stage, this]

theorem app_main_some (e : Env) (fuel : Nat) (r : Run) (h : app_main e fuel = some r) :
    ∃ sp, init_spiffs_user e fuel = some sp ∧
      r = Run.after (head_events ++ sp.2) (app_main_boot e) := by
  unfold app_main at h
  simp only [Option.map_eq_some'] at h
  obtain ⟨sp, hsp, rfl⟩ := h
  exact ⟨sp, hsp, rfl⟩

theorem err_nvs_init (e : Env) :
    app_main_err_nvs e willow_state.STATE_INIT =
      ⟨halt_events e, Outcome.suspended, willow_state.STATE_INIT⟩ := by
  simp [app_main_err_nvs, halt_events, willow_state.toNat]

theorem err_nvs_ok (e : Env) :
    app_main_err_nvs e willow_state.STATE_NVS_OK =
      ⟨app_main_tail e, Outcome.diag_loop, willow_state.STATE_NVS_OK⟩ := by
  simp [app_main_err_nvs, willow_state.toNat]

theorem was_cases (e : Env) (err : esp_err_t) :
    (e.nvs_open "WAS" ≠ ESP_OK ∧ app_main_was e err =
      ⟨[Event.nvs_open "WAS" (e.nvs_open "WAS"),
        Event.ESP_LOGE "failed to open NVS namespace WAS: %s" [Arg.err_name err]] ++
        halt_events e, Outcome.suspended, willow_state.STATE_INIT⟩) ∨
    (e.nvs_open "WAS" = ESP_OK ∧ (e.nvs_get_str "WAS" "URL" 2048).1 ≠ ESP_OK ∧
      app_main_was e err =
      ⟨[Event.nvs_open "WAS" ESP_OK,
        Event.nvs_get_str "WAS" "URL" 2048 (e.nvs_get_str "WAS" "URL" 2048).1,
        Event.ESP_LOGE "failed to get WASL URL from NVS namespace WAS: %s" [Arg.err_name err]] ++
        halt_events e, Outcome.suspended, willow_state.STATE_INIT⟩) ∨
    (was_ok e ∧ e.config_valid = false ∧ app_main_was e err =
      ⟨was_events e ++ [Event.request_config, Event.vTaskDelay Delay.portMAX_DELAY],
        Outcome.suspended, willow_state.STATE_NVS_OK⟩) ∨
    (was_ok e ∧ e.config_valid = true ∧ app_main_was e err =
      ⟨was_events e ++ app_main_tail e, Outcome.diag_loop, willow_state.STATE_NVS_OK⟩) := by
  by_cases h1 : e.nvs_open "WAS" = ESP_OK
  · by_cases h2 : (e.nvs_get_str "WAS" "URL" 2048).1 = ESP_OK
    · by_cases h3 : e.config_valid = true
      · right; right; right
        refine ⟨⟨h1, h2⟩, h3, ?_⟩
        simp [app_main_was, h1, h2, h3, err_nvs_ok, Run.after, was_events]
      · right; right; left
        simp only [Bool.not_eq_true] at h3
        refine ⟨⟨h1, h2⟩, h3, ?_⟩
        simp [app_main_was, h1, h2, h3, Run.after, was_events]
    · right; left
      refine ⟨h1, h2, ?_⟩
      simp [app_main_was, h1, h2, err_nvs_init, Run.after]
  · left
    refine ⟨h1, ?_⟩
    simp [app_main_was, h1, err_nvs_init, Run.after]

theorem net_cases (e : Env) (err : esp_err_t) :
    (e.CONFIG_WILLOW_ETHERNET = false ∧ e.nvs_open "WIFI" ≠ ESP_OK ∧ app_main_net e err =
      ⟨[Event.nvs_open "WIFI" (e.nvs_open "WIFI"),
        Event.ESP_LOGE "failed to open NVS namespace WIFI: %s" [Arg.err_name err]] ++
        halt_events e, Outcome.suspended, willow_state.STATE_INIT⟩) ∨
    (e.CONFIG_WILLOW_ETHERNET = false ∧ e.nvs_open "WIFI" = ESP_OK ∧
      (e.nvs_get_str "WIFI" "PSK" 64).1 ≠ ESP_OK ∧ app_main_net e err =
      ⟨[Event.nvs_open "WIFI" ESP_OK,
        Event.nvs_get_str "WIFI" "PSK" 64 (e.nvs_get_str "WIFI" "PSK" 64).1,
        Event.ESP_LOGE "failed to get PSK from NVS namespace WIFI: %s" [Arg.err_name err]] ++
        halt_events e, Outcome.suspended, willow_state.STATE_INIT⟩) ∨
    (e.CONFIG_WILLOW_ETHERNET = false ∧ e.nvs_open "WIFI" = ESP_OK ∧
      (e.nvs_get_str "WIFI" "PSK" 64).1 = ESP_OK ∧
      (e.nvs_get_str "WIFI" "SSID" 33).1 ≠ ESP_OK ∧ app_main_net e err =
      ⟨[Event.nvs_open "WIFI" ESP_OK,
        Event.nvs_get_str "WIFI" "PSK" 64 ESP_OK,
        Event.nvs_get_str "WIFI" "SSID" 33 (e.nvs_get_str "WIFI" "SSID" 33).1,
        Event.ESP_LOGE "failed to get PSK from NVS namespace WIFI: %s" [Arg.err_name err]] ++
        halt_events e, Outcome.suspended, willow_state.STATE_INIT⟩) ∨
    (wifi_ok e ∧ app_main_net e err = Run.after (net_events e) (app_main_was e err)) := by
  by_cases hw : e.CONFIG_WILLOW_ETHERNET = true
  · right; right; right
    exact ⟨by simp [wifi_ok, hw], by simp [app_main_net, net_events, hw]⟩
  · simp only [Bool.not_eq_true] at hw
    by_cases h1 : e.nvs_open "WIFI" = ESP_OK
    · by_cases h2 : (e.nvs_get_str "WIFI" "PSK" 64).1 = ESP_OK
      · by_cases h3 : (e.nvs_get_str "WIFI" "SSID" 33).1 = ESP_OK
        · right; right; right
          exact ⟨fun _ => ⟨h1, h2, h3⟩, by simp [app_main_net, net_events, hw, h1, h2, h3]⟩
        · right; right; left
          exact ⟨hw, h1, h2, h3, by simp [app_main_net, hw, h1, h2, h3, err_nvs_init, Run.after]⟩
      · right; left
        exact ⟨hw, h1, h2, by simp [app_main_net, hw, h1, h2, err_nvs_init, Run.after]⟩
    · left
      exact ⟨hw, h1, by simp [app_main_net, hw, h1, err_nvs_init, Run.after]⟩

theorem boot_cases (e : Env) :
    (e.esp_netif_init ≠ ESP_OK ∧ app_main_boot e = aborted_run (boot_events e)) ∨
    (e.esp_netif_init = ESP_OK ∧ e.nvs_flash_init 0 = ESP_ERR_NVS_NO_FREE_PAGES ∧
      e.nvs_flash_erase ≠ ESP_OK ∧ app_main_boot e = aborted_run (boot_events e ++
        [Event.nvs_flash_init ESP_ERR_NVS_NO_FREE_PAGES,
         Event.nvs_flash_erase e.nvs_flash_erase])) ∨
    (e.esp_netif_init = ESP_OK ∧ e.nvs_flash_init 0 = ESP_ERR_NVS_NO_FREE_PAGES ∧
      e.nvs_flash_erase = ESP_OK ∧ e.nvs_flash_init 1 ≠ ESP_OK ∧
      app_main_boot e = aborted_run (boot_events e ++
        [Event.nvs_flash_init ESP_ERR_NVS_NO_FREE_PAGES, Event.nvs_flash_erase ESP_OK,
         Event.nvs_flash_init (e.nvs_flash_init 1)])) ∨
    (store_ok e ∧ app_main_boot e =
      Run.after (boot_events e ++ store_events e) (app_main_net e (e.nvs_flash_init 0))) := by
  by_cases h0 : e.esp_netif_init = ESP_OK
  · by_cases h1 : e.nvs_flash_init 0 = ESP_ERR_NVS_NO_FREE_PAGES
    · by_cases h2 : e.nvs_flash_erase = ESP_OK
      · by_cases h3 : e.nvs_flash_init 1 = ESP_OK
        · right; right; right
          exact ⟨⟨h0, fun _ => ⟨h2, h3⟩⟩,
            by simp [app_main_boot, app_main_nvs, boot_events, store_events, h0, h1, h2, h3,
              Run.after]⟩
        · right; right; left
          exact ⟨h0, h1, h2, h3,
            by simp [app_main_boot, app_main_nvs, boot_events, h0, h1, h2, h3, Run.after,
              aborted_run]⟩
      · right; left
        exact ⟨h0, h1, h2,
          by simp [app_main_boot, app_main_nvs, boot_events, h0, h1, h2, Run.after, aborted_run]⟩
    · right; right; right
      exact ⟨⟨h0, fun h => absurd h h1⟩,
        by simp [app_main_boot, app_main_nvs, boot_events, store_events, h0, h1, Run.after]⟩
  · left
    exact ⟨h0, by simp [app_main_boot, boot_events, h0]⟩


/-- Every run of the part of `app_main` after `init_spiffs_user` is one of ten
scenarios. -/
theorem boot_scenarios (e : Env) :
    (e.esp_netif_init ≠ ESP_OK ∧ app_main_boot e = aborted_run (boot_events e)) ∨
    (e.esp_netif_init = ESP_OK ∧ e.nvs_flash_init 0 = ESP_ERR_NVS_NO_FREE_PAGES ∧
      e.nvs_flash_erase ≠ ESP_OK ∧ app_main_boot e = aborted_run (boot_events e ++
        [Event.nvs_flash_init ESP_ERR_NVS_NO_FREE_PAGES,
         Event.nvs_flash_erase e.nvs_flash_erase])) ∨
    (e.esp_netif_init = ESP_OK ∧ e.nvs_flash_init 0 = ESP_ERR_NVS_NO_FREE_PAGES ∧
      e.nvs_flash_erase = ESP_OK ∧ e.nvs_flash_init 1 ≠ ESP_OK ∧
      app_main_boot e = aborted_run (boot_events e ++
        [Event.nvs_flash_init ESP_ERR_NVS_NO_FREE_PAGES, Event.nvs_flash_erase ESP_OK,
         Event.nvs_flash_init (e.nvs_flash_init 1)])) ∨
    (store_ok e ∧ e.CONFIG_WILLOW_ETHERNET = false ∧ e.nvs_open "WIFI" ≠ ESP_OK ∧
      app_main_boot e =
      ⟨boot_events e ++ store_events e ++
        [Event.nvs_open "WIFI" (e.nvs_open "WIFI"),
         Event.ESP_LOGE "failed to open NVS namespace WIFI: %s"
           [Arg.err_name (e.nvs_flash_init 0)]] ++
        halt_events e, Outcome.suspended, willow_state.STATE_INIT⟩) ∨
    (store_ok e ∧ e.CONFIG_WILLOW_ETHERNET = false ∧ e.nvs_open "WIFI" = ESP_OK ∧
      (e.nvs_get_str "WIFI" "PSK" 64).1 ≠ ESP_OK ∧ app_main_boot e =
      ⟨boot_events e ++ store_events e ++
        [Event.nvs_open "WIFI" ESP_OK,
         Event.nvs_get_str "WIFI" "PSK" 64 (e.nvs_get_str "WIFI" "PSK" 64).1,
         Event.ESP_LOGE "failed to get PSK from NVS namespace WIFI: %s"
           [Arg.err_name (e.nvs_flash_init 0)]] ++
        halt_events e, Outcome.suspended, willow_state.STATE_INIT⟩) ∨
    (store_ok e ∧ e.CONFIG_WILLOW_ETHERNET = false ∧ e.nvs_open "WIFI" = ESP_OK ∧
      (e.nvs_get_str "WIFI" "PSK" 64).1 = ESP_OK ∧
      (e.nvs_get_str "WIFI" "SSID" 33).1 ≠ ESP_OK ∧ app_main_boot e =
      ⟨boot_events e ++ store_events e ++
        [Event.nvs_open "WIFI" ESP_OK,
         Event.nvs_get_str "WIFI" "PSK" 64 ESP_OK,
         Event.nvs_get_str "WIFI" "SSID" 33 (e.nvs_get_str "WIFI" "SSID" 33).1,
         Event.ESP_LOGE "failed to get PSK from NVS namespace WIFI: %s"
           [Arg.err_name (e.nvs_flash_init 0)]] ++
        halt_events e, Outcome.suspended, willow_state.STATE_INIT⟩) ∨
    (store_ok e ∧ wifi_ok e ∧ e.nvs_open "WAS" ≠ ESP_OK ∧ app_main_boot e =
      ⟨boot_events e ++ store_events e ++ net_events e ++
        [Event.nvs_open "WAS" (e.nvs_open "WAS"),
         Event.ESP_LOGE "failed to open NVS namespace WAS: %s"
           [Arg.err_name (e.nvs_flash_init 0)]] ++
        halt_events e, Outcome.suspended, willow_state.STATE_INIT⟩) ∨
    (store_ok e ∧ wifi_ok e ∧ e.nvs_open "WAS" = ESP_OK ∧
      (e.nvs_get_str "WAS" "URL" 2048).1 ≠ ESP_OK ∧ app_main_boot e =
      ⟨boot_events e ++ store_events e ++ net_events e ++
        [Event.nvs_open "WAS" ESP_OK,
         Event.nvs_get_str "WAS" "URL" 2048 (e.nvs_get_str "WAS" "URL" 2048).1,
         Event.ESP_LOGE "failed to get WASL URL from NVS namespace WAS: %s"
           [Arg.err_name (e.nvs_flash_init 0)]] ++
        halt_events e, Outcome.suspended, willow_state.STATE_INIT⟩) ∨
    (store_ok e ∧ wifi_ok e ∧ was_ok e ∧ e.config_valid = false ∧ app_main_boot e =
      ⟨boot_events e ++ store_events e ++ net_events e ++ was_events e ++
        [Event.request_config, Event.vTaskDelay Delay.portMAX_DELAY],
        Outcome.suspended, willow_state.STATE_NVS_OK⟩) ∨
    (store_ok e ∧ wifi_ok e ∧ was_ok e ∧ e.config_valid = true ∧ app_main_boot e =
      ⟨boot_events e ++ store_events e ++ net_events e ++ was_events e ++ app_main_tail e,
        Outcome.diag_loop, willow_state.STATE_NVS_OK⟩) := by
  rcases boot_cases e with ⟨h, hb⟩ | ⟨h0, h1, h2, hb⟩ | ⟨h0, h1, h2, h3, hb⟩ | ⟨hs, hb⟩
  · exact Or.inl ⟨h, hb⟩
  · exact Or.inr (Or.inl ⟨h0, h1, h2, hb⟩)
  · exact Or.inr (Or.inr (Or.inl ⟨h0, h1, h2, h3, hb⟩))
  · right; right; right
    rcases net_cases e (e.nvs_flash_init 0) with
      ⟨hw, h1, hn⟩ | ⟨hw, h1, h2, hn⟩ | ⟨hw, h1, h2, h3, hn⟩ | ⟨hwifi, hn⟩
    · exact Or.inl ⟨hs, hw, h1, by rw [hb, hn]; simp [Run.after]⟩
    · exact Or.inr (Or.inl ⟨hs, hw, h1, h2, by rw [hb, hn]; simp [Run.after]⟩)
    · exact Or.inr (Or.inr (Or.inl ⟨hs, hw, h1, h2, h3, by rw [hb, hn]; simp [Run.after]⟩))
    · right; right; right
      rcases was_cases e (e.nvs_flash_init 0) with
        ⟨h1, hwas⟩ | ⟨h1, h2, hwas⟩ | ⟨ho, hc, hwas⟩ | ⟨ho, hc, hwas⟩
      · exact Or.inl ⟨hs, hwifi, h1, by rw [hb, hn, hwas]; simp [Run.after]⟩
      · exact Or.inr (Or.inl ⟨hs, hwifi, h1, h2, by rw [hb, hn, hwas]; simp [Run.after]⟩)
      · exact Or.inr (Or.inr (Or.inl ⟨hs, hwifi, ho, hc, by rw [hb, hn, hwas]; simp [Run.after]⟩))
      · exact Or.inr (Or.inr (Or.inr ⟨hs, hwifi, ho, hc, by rw [hb, hn, hwas]; simp [Run.after]⟩))

theorem tail_events (e : Env) : ∀ ev ∈ app_main_tail e, ev.is_tail_event = true := by
  intro ev hev
  simp only [app_main_tail, error_check_without_abort, List.mem_append, List.mem_cons,
    List.mem_singleton, List.mem_ite_nil_right, List.mem_ite_nil_left, List.not_mem_nil,
    or_false] at hev
  casesm* _ ∨ _, _ ∧ _ <;> subst_vars <;> rfl

theorem tail_event_facts (ev : Event) (h : ev.is_tail_event = true) :
    ev.failed_cred_read = false ∧ ev.failed_wifi_read = false ∧ ev.is_init_was = false ∧
    ev.is_init_wifi = false ∧ ev.is_ui_pr_err = false ∧
    ev ≠ Event.request_config ∧ ev ≠ Event.abort ∧
    ev ≠ Event.vTaskDelay Delay.portMAX_DELAY := by
  cases ev <;> first
    | (simp [Event.is_tail_event, Event.is_later_stage] at h; done)
    | simp [Event.failed_cred_read, Event.failed_wifi_read, Event.is_init_was,
        Event.is_init_wifi, Event.is_later_stage, Event.is_ui_pr_err]

theorem spiffs_event_facts (ev : Event) (h : ev.is_spiffs_event = true) :
    ev.failed_cred_read = false ∧ ev.failed_wifi_read = false ∧ ev.is_init_was = false ∧
    ev.is_init_wifi = false ∧ ev.is_later_stage = false ∧ ev.is_ui_pr_err = false ∧
    ev ≠ Event.request_config ∧ ev ≠ Event.abort ∧
    ev ≠ Event.vTaskDelay Delay.portMAX_DELAY := by
  cases ev <;> first
    | (simp [Event.is_spiffs_event] at h; done)
    | simp [Event.failed_cred_read, Event.failed_wifi_read, Event.is_init_was,
        Event.is_init_wifi, Event.is_later_stage, Event.is_ui_pr_err]
  rename_i d
  cases d <;> simp [Event.is_spiffs_event] at h ⊢

theorem getLast?_append_cons {α : Type} (l l' : List α) (a : α) :
    (l ++ a :: l').getLast? = (a :: l').getLast? := by
  rw [List.getLast?_append, List.getLast?_cons]
  rfl

theorem getLast?_cons_append_cons {α : Type} (l l' : List α) (a b : α) :
    (b :: (l ++ a :: l')).getLast? = (a :: l').getLast? := by
  rw [← List.cons_append, getLast?_append_cons]

theorem any_false_of_forall {l : List Event} {Q : Event → Bool}
    (h : ∀ ev ∈ l, Q ev = false) : l.any Q = false := by
  simpa [List.any_eq_false] using h

theorem C1_credential_failure_halts (e : Env) (fuel : Nat) (r : Run)
    (hw : e.CONFIG_WILLOW_ETHERNET = false) (h : app_main e fuel = some r)
    (hf : ∃ ev ∈ r.trace, ev.failed_cred_read = true) :
    (∀ ev ∈ r.trace, ev.is_init_was = false) ∧
    r.outcome = Outcome.suspended ∧
    r.trace.getLast? = some (Event.vTaskDelay Delay.portMAX_DELAY) ∧
    r.state = willow_state.STATE_INIT ∧
    willow_state.STATE_INIT.toNat < willow_state.STATE_NVS_OK.toNat ∧
    (∀ ev ∈ r.trace, ev.is_later_stage = false) ∧
    ((∃ ev ∈ r.trace, ev.failed_wifi_read = true) → ∀ ev ∈ r.trace, ev.is_init_wifi = false) := by
  obtain ⟨sp, hsp, rfl⟩ := app_main_some e fuel r h
  have hsp_ev := init_spiffs_user_events e fuel sp hsp
  have s1 : sp.2.any Event.failed_cred_read = false :=
    any_false_of_forall fun ev h => (spiffs_event_facts ev (hsp_ev ev h)).1
  have s2 : sp.2.any Event.failed_wifi_read = false :=
    any_false_of_forall fun ev h => (spiffs_event_facts ev (hsp_ev ev h)).2.1
  have s3 : sp.2.any Event.is_init_was = false :=
    any_false_of_forall fun ev h => (spiffs_event_facts ev (hsp_ev ev h)).2.2.1
  have s4 : sp.2.any Event.is_init_wifi = false :=
    any_false_of_forall fun ev h => (spiffs_event_facts ev (hsp_ev ev h)).2.2.2.1
  have s5 : sp.2.any Event.is_later_stage = false :=
    any_false_of_forall fun ev h => (spiffs_event_facts ev (hsp_ev ev h)).2.2.2.2.1
  have t1 : (app_main_tail e).any Event.failed_cred_read = false :=
    any_false_of_forall fun ev h => (tail_event_facts ev (tail_events e ev h)).1
  have hf' : (Run.after (head_events ++ sp.2) (app_main_boot e)).trace.any
      Event.failed_cred_read = true := by simpa [List.any_eq_true] using hf
  clear hf
  have key : ∀ Q : Event → Bool, (∀ ev ∈ (Run.after (head_events ++ sp.2) (app_main_boot e)).trace, Q ev = false) ↔ (Run.after (head_events ++ sp.2) (app_main_boot e)).trace.any Q = false := by
    intro Q; simp [List.any_eq_false]
  have key2 : (∃ ev ∈ (Run.after (head_events ++ sp.2) (app_main_boot e)).trace, ev.failed_wifi_read = true) ↔ (Run.after (head_events ++ sp.2) (app_main_boot e)).trace.any Event.failed_wifi_read = true := by
    simp [List.any_eq_true]
  rw [key, key, key, key2]
  rcases boot_scenarios e with ⟨h0, hb⟩ | ⟨h0, h1, h2, hb⟩ | ⟨h0, h1, h2, h3, hb⟩ |
    ⟨hs, _, h1, hb⟩ | ⟨hs, _, h1, h2, hb⟩ | ⟨hs, _, h1, h2, h3, hb⟩ |
    ⟨hs, hwifi, h1, hb⟩ | ⟨hs, hwifi, h1, h2, hb⟩ | ⟨hs, hwifi, hwas, hc, hb⟩ |
    ⟨hs, hwifi, hwas, hc, hb⟩
  all_goals rw [hb] at hf' ⊢
  all_goals
    by_cases hnfp : e.nvs_flash_init 0 = ESP_ERR_NVS_NO_FREE_PAGES <;>
    by_cases hld : e.ld = none <;>
    by_cases hiw : e.init_was = ESP_OK <;>
    simp [Run.after, aborted_run, head_events, boot_events, store_events, halt_events,
      net_events, was_events, List.any_append, s1, s2, s3, s4, s5, t1, Event.failed_cred_read,
      Event.failed_wifi_read, Event.is_init_was, Event.is_init_wifi, Event.is_later_stage,
      willow_state.toNat, hw, hnfp, hld, hiw, getLast?_cons_append_cons,
      List.getLast?_cons_cons] at hf' ⊢

theorem C1_witness :
    env_no_wifi_namespace.CONFIG_WILLOW_ETHERNET = false ∧
    app_main env_no_wifi_namespace 2 = some (the_run env_no_wifi_namespace 2) ∧
    (∃ ev ∈ (the_run env_no_wifi_namespace 2).trace, ev.failed_cred_read = true) ∧
    (the_run env_no_wifi_namespace 2).outcome = Outcome.suspended :=
  ⟨rfl, rfl, ⟨Event.nvs_open "WIFI" ESP_ERR_NVS_NOT_FOUND, by decide, by decide⟩,
    (C1_credential_failure_halts env_no_wifi_namespace 2 (the_run env_no_wifi_namespace 2)
      rfl rfl ⟨Event.nvs_open "WIFI" ESP_ERR_NVS_NOT_FOUND, by decide, by decide⟩).2.1⟩

theorem spiffs_event_obs (ev : Event) (h : ev.is_spiffs_event = true) :
    ev.is_request_config = false ∧ ev.is_store_call = false ∧ ev.state_write = none ∧
    ev.flash_init_result = none := by
  cases ev <;> first
    | (simp [Event.is_spiffs_event] at h; done)
    | simp [Event.is_store_call, Event.state_write, Event.flash_init_result,
        Event.is_request_config]

theorem tail_event_obs (ev : Event) (h : ev.is_tail_event = true) :
    ev.is_request_config = false ∧ ev.is_store_call = false ∧ ev.state_write = none ∧
    ev.flash_init_result = none := by
  cases ev <;> first
    | (simp [Event.is_tail_event, Event.is_later_stage] at h; done)
    | simp [Event.is_store_call, Event.state_write, Event.flash_init_result,
        Event.is_request_config]

/-- Observations on the events of `init_spiffs_user`. -/
theorem spiffs_facts (l : List Event) (h : ∀ ev ∈ l, ev.is_spiffs_event = true) :
    l.countP Event.is_request_config = 0 ∧ store_calls l = [] ∧ state_writes l = [] ∧
    l.filterMap Event.flash_init_result = [] ∧ l.filter Event.is_later_stage = [] ∧
    l.any Event.is_ui_pr_err = false ∧ (∀ ev, ev.is_spiffs_event = false → ev ∉ l) := by
  refine ⟨?_, ?_, ?_, ?_, ?_, ?_, ?_⟩
  · rw [List.countP_eq_zero]
    intro ev hev; simp [(spiffs_event_obs ev (h ev hev)).1]
  · simp only [store_calls, List.filter_eq_nil_iff]
    intro ev hev; simp [(spiffs_event_obs ev (h ev hev)).2.1]
  · simp only [state_writes, List.filterMap_eq_nil_iff]
    intro ev hev; exact (spiffs_event_obs ev (h ev hev)).2.2.1
  · simp only [List.filterMap_eq_nil_iff]
    intro ev hev; exact (spiffs_event_obs ev (h ev hev)).2.2.2
  · simp only [List.filter_eq_nil_iff]
    intro ev hev; simp [(spiffs_event_facts ev (h ev hev)).2.2.2.2.1]
  · exact any_false_of_forall fun ev hev => (spiffs_event_facts ev (h ev hev)).2.2.2.2.2.1
  · intro ev hev hm
    rw [h ev hm] at hev
    exact absurd hev (by simp)

/-- Observations on the events of lines 197-226. -/
theorem tail_facts (e : Env) :
    (app_main_tail e).countP Event.is_request_config = 0 ∧ store_calls (app_main_tail e) = [] ∧
    state_writes (app_main_tail e) = [] ∧
    (app_main_tail e).filterMap Event.flash_init_result = [] ∧
    (app_main_tail e).any Event.is_ui_pr_err = false ∧
    (∀ ev, ev.is_tail_event = false → ev ∉ app_main_tail e) := by
  have h := tail_events e
  refine ⟨?_, ?_, ?_, ?_, ?_, ?_⟩
  · rw [List.countP_eq_zero]
    intro ev hev; simp [(tail_event_obs ev (h ev hev)).1]
  · simp only [store_calls, List.filter_eq_nil_iff]
    intro ev hev; simp [(tail_event_obs ev (h ev hev)).2.1]
  · simp only [state_writes, List.filterMap_eq_nil_iff]
    intro ev hev; exact (tail_event_obs ev (h ev hev)).2.2.1
  · simp only [List.filterMap_eq_nil_iff]
    intro ev hev; exact (tail_event_obs ev (h ev hev)).2.2.2
  · exact any_false_of_forall fun ev hev => (tail_event_facts ev (h ev hev)).2.2.2.2.1
  · intro ev hev hm
    rw [h ev hm] at hev
    exact absurd hev (by simp)

theorem stages_app_main_tail (e : Env) :
    stages (app_main_tail e) =
      [Stage.init_sntp, Stage.endpoint_selection, Stage.init_buttons,
       Stage.init_input_key_service, Stage.init_audio, Stage.init_lvgl_touch,
       Stage.init_display_timer, Stage.mark_app_valid, Stage.reset_timer] := by
  simp only [app_main_tail, error_check_without_abort, stages, List.filterMap_append]
  split_ifs <;> simp [Event.stage]

theorem url_read_mem_successful_reads (e : Env) :
    Event.nvs_get_str "WAS" "URL" 2048 ESP_OK ∈ successful_reads e := by
  simp [successful_reads]

theorem successful_reads_mem (e : Env) (l₁ l₂ l₃ : List Event) :
    ∀ ev ∈ successful_reads e, ev ∈ l₁ ++ (l₂ ++ net_events e ++ was_events e ++ l₃) := by
  intro ev hev
  by_cases hwired : e.CONFIG_WILLOW_ETHERNET = true
  · simp [successful_reads, hwired] at hev
    rcases hev with rfl | rfl <;> simp [was_events]
  · simp [successful_reads, hwired] at hev
    rcases hev with rfl | rfl | rfl | rfl | rfl <;> simp [was_events, net_events, hwired]

theorem C2_invalid_config_gate (e : Env) (fuel : Nat) (r : Run)
    (h : app_main e fuel = some r) (hc : e.config_valid = false) :
    r.outcome ≠ Outcome.diag_loop ∧
    ((∀ ev ∈ successful_reads e, ev ∈ r.trace) →
      r.trace.countP Event.is_request_config = 1 ∧ r.outcome = Outcome.suspended ∧
      [Event.request_config, Event.vTaskDelay Delay.portMAX_DELAY] <:+ r.trace) ∧
    (¬ (∀ ev ∈ successful_reads e, ev ∈ r.trace) →
      r.trace.countP Event.is_request_config = 0) := by
  obtain ⟨sp, hsp, rfl⟩ := app_main_some e fuel r h
  obtain ⟨s1, -, -, -, -, -, s7⟩ := spiffs_facts sp.2 (init_spiffs_user_events e fuel sp hsp)
  have s8 : Event.nvs_get_str "WAS" "URL" 2048 ESP_OK ∉ sp.2 := s7 _ rfl
  have hurl := url_read_mem_successful_reads e
  rcases boot_scenarios e with ⟨h0, hb⟩ | ⟨h0, h1, h2, hb⟩ | ⟨h0, h1, h2, h3, hb⟩ |
    ⟨hs, hw, h1, hb⟩ | ⟨hs, hw, h1, h2, hb⟩ | ⟨hs, hw, h1, h2, h3, hb⟩ |
    ⟨hs, hwifi, h1, hb⟩ | ⟨hs, hwifi, h1, h2, hb⟩ | ⟨hs, hwifi, hwas, hinv, hb⟩ |
    ⟨hs, hwifi, hwas, hv, hb⟩
  all_goals rw [hb]
  all_goals first
    | (exfalso; rw [hc] at hv; exact absurd hv (by simp))
    | (have hinv' := hinv
       refine ⟨by simp [Run.after], fun _ => ⟨?_, by simp [Run.after], ?_⟩, fun hn => ?_⟩
       · by_cases hnfp : e.nvs_flash_init 0 = ESP_ERR_NVS_NO_FREE_PAGES <;>
         by_cases hld : e.ld = none <;>
         by_cases hwired : e.CONFIG_WILLOW_ETHERNET = true <;>
         by_cases hiw : e.init_was = ESP_OK <;>
         simp [Run.after, head_events, boot_events, store_events,
           net_events, was_events, s1, hnfp, hld, hwired, hiw, List.countP_cons,
           Event.is_request_config]
       · refine ⟨head_events ++ sp.2 ++ (boot_events e ++ store_events e ++ net_events e ++
           was_events e), ?_⟩
         simp [Run.after]
       · exact absurd (by
           simpa [Run.after, List.append_assoc] using
             successful_reads_mem e (head_events ++ sp.2)
               (boot_events e ++ store_events e)
               [Event.request_config, Event.vTaskDelay Delay.portMAX_DELAY]) hn)
    | (have hno : Event.nvs_get_str "WAS" "URL" 2048 ESP_OK ∉
          (Run.after (head_events ++ sp.2) (app_main_boot e)).trace := by
        rw [hb]
        by_cases hnfp : e.nvs_flash_init 0 = ESP_ERR_NVS_NO_FREE_PAGES <;>
        by_cases hld : e.ld = none <;>
        by_cases hwired : e.CONFIG_WILLOW_ETHERNET = true <;>
        simp_all [Run.after, aborted_run, head_events, boot_events, store_events, halt_events,
          net_events] <;>
        intro hx <;> exact h2 hx.symm
       rw [hb] at hno
       refine ⟨by simp [Run.after, aborted_run], fun hall => absurd (hall _ hurl) hno,
         fun _ => ?_⟩
       by_cases hnfp : e.nvs_flash_init 0 = ESP_ERR_NVS_NO_FREE_PAGES <;>
       by_cases hld : e.ld = none <;>
       by_cases hwired : e.CONFIG_WILLOW_ETHERNET = true <;>
       simp [Run.after, aborted_run, head_events, boot_events, store_events, halt_events,
         net_events, s1, hnfp, hld, hwired, List.countP_cons, Event.is_request_config])

theorem C2_counterexample :
    env_invalid_no_wifi.config_valid = false ∧
    app_main env_invalid_no_wifi 2 = some (the_run env_invalid_no_wifi 2) ∧
    (the_run env_invalid_no_wifi 2).trace.countP Event.is_request_config = 0 ∧
    ¬ ((the_run env_invalid_no_wifi 2).trace.countP Event.is_request_config = 1) :=
  ⟨rfl, rfl, by decide, by decide⟩

theorem C2_witness :
    app_main env_invalid 2 = some (the_run env_invalid 2) ∧
    env_invalid.config_valid = false ∧
    (∀ ev ∈ successful_reads env_invalid, ev ∈ (the_run env_invalid 2).trace) ∧
    (the_run env_invalid 2).outcome ≠ Outcome.diag_loop ∧
    (the_run env_invalid 2).trace.countP Event.is_request_config = 1 :=
  ⟨rfl, rfl, by decide,
    (C2_invalid_config_gate env_invalid 2 (the_run env_invalid 2) rfl rfl).1,
    ((C2_invalid_config_gate env_invalid 2 (the_run env_invalid 2) rfl rfl).2.1
      (by decide)).1⟩

theorem same_progress_after (pre : List Event) (r₁ r₂ : Run) (h : same_progress r₁ r₂) :
    same_progress (Run.after pre r₁) (Run.after pre r₂) := by
  obtain ⟨h1, h2, h3, h4⟩ := h
  refine ⟨?_, ?_, h3, h4⟩
  · simp only [Run.after, stages, List.filterMap_append] at h1 ⊢
    rw [h1]
  · simp only [Run.after, List.filter_append]
    rw [h2]

theorem same_progress_refl (r : Run) : same_progress r r := ⟨rfl, rfl, rfl, rfl⟩

theorem tail_differ (e₁ e₂ : Env) (h : differ_in_init_was e₁ e₂) :
    app_main_tail e₁ = app_main_tail e₂ := by
  unfold differ_in_init_was at h
  rw [h]; rfl

theorem err_nvs_differ (e₁ e₂ : Env) (h : differ_in_init_was e₁ e₂) (s : willow_state) :
    app_main_err_nvs e₁ s = app_main_err_nvs e₂ s := by
  unfold differ_in_init_was at h
  rw [h]; rfl

theorem was_differ (e₁ e₂ : Env) (h : differ_in_init_was e₁ e₂) (err : esp_err_t) :
    same_progress (app_main_was e₁ err) (app_main_was e₂ err) := by
  have ht := err_nvs_differ e₁ e₂ h
  have f1 : e₁.nvs_open = e₂.nvs_open := by rw [h]
  have f2 : e₁.nvs_get_str = e₂.nvs_get_str := by rw [h]
  have f3 : e₁.config_valid = e₂.config_valid := by rw [h]
  have f4 : e₁.ld = e₂.ld := by rw [h]
  unfold app_main_was
  simp only [ht, f1, f2, f3, f4]
  by_cases h1 : e₂.nvs_open "WAS" = ESP_OK
  · by_cases h2 : (e₂.nvs_get_str "WAS" "URL" 2048).1 = ESP_OK
    · by_cases h3 : e₂.config_valid = true <;>
      by_cases hc : e₁.init_was = ESP_OK <;>
      by_cases hi : e₂.init_was = ESP_OK <;>
      by_cases hld : e₂.ld = none <;>
      simp [h1, h2, h3, hc, hi, hld, same_progress, Run.after, stages, Event.stage,
        Event.is_later_stage, List.filter_cons]
    · simp [h1, h2, same_progress]
  · simp [h1, same_progress]

theorem net_differ (e₁ e₂ : Env) (h : differ_in_init_was e₁ e₂) (err : esp_err_t) :
    same_progress (app_main_net e₁ err) (app_main_net e₂ err) := by
  have ht := err_nvs_differ e₁ e₂ h
  have hwas := was_differ e₁ e₂ h err
  have f1 : e₁.nvs_open = e₂.nvs_open := by rw [h]
  have f2 : e₁.nvs_get_str = e₂.nvs_get_str := by rw [h]
  have f3 : e₁.CONFIG_WILLOW_ETHERNET = e₂.CONFIG_WILLOW_ETHERNET := by rw [h]
  unfold app_main_net
  simp only [ht, f1, f2, f3]
  by_cases hw : e₂.CONFIG_WILLOW_ETHERNET = true
  · simp only [hw, if_true]
    exact same_progress_after _ _ _ hwas
  · by_cases h1 : e₂.nvs_open "WIFI" = ESP_OK
    · by_cases h2 : (e₂.nvs_get_str "WIFI" "PSK" 64).1 = ESP_OK
      · by_cases h3 : (e₂.nvs_get_str "WIFI" "SSID" 33).1 = ESP_OK
        · simp only [hw, h1, h2, h3, ne_eq, not_true_eq_false, if_false]
          exact same_progress_after _ _ _ hwas
        · simp [hw, h1, h2, h3, same_progress]
      · simp [hw, h1, h2, same_progress]
    · simp [hw, h1, same_progress]

theorem boot_differ (e₁ e₂ : Env) (h : differ_in_init_was e₁ e₂) :
    same_progress (app_main_boot e₁) (app_main_boot e₂) := by
  have f1 : e₁.esp_netif_init = e₂.esp_netif_init := by rw [h]
  have f2 : e₁.nvs_flash_init = e₂.nvs_flash_init := by rw [h]
  have f3 : e₁.nvs_flash_erase = e₂.nvs_flash_erase := by rw [h]
  have hnet := net_differ e₁ e₂ h (e₂.nvs_flash_init 0)
  unfold app_main_boot app_main_nvs
  simp only [f1, f2, f3]
  by_cases h0 : e₂.esp_netif_init = ESP_OK
  · by_cases h1 : e₂.nvs_flash_init 0 = ESP_ERR_NVS_NO_FREE_PAGES
    · by_cases h2 : e₂.nvs_flash_erase = ESP_OK
      · by_cases h3 : e₂.nvs_flash_init 1 = ESP_OK
        · simp only [h0, h1, h2, h3, ne_eq, not_true_eq_false, if_false, if_true]
          rw [h1] at hnet
          exact same_progress_after _ _ _ (same_progress_after _ _ _ hnet)
        · simp [h0, h1, h2, h3, same_progress]
      · simp [h0, h1, h2, same_progress]
    · simp only [h0, h1, ne_eq, not_true_eq_false, if_false]
      exact same_progress_after _ _ _ (same_progress_after _ _ _ hnet)
  · simp [h0, same_progress]

theorem spiffs_differ (e₁ e₂ : Env) (h : differ_in_init_was e₁ e₂) (fuel : Nat) :
    init_spiffs_user e₁ fuel = init_spiffs_user e₂ fuel := by
  have f1 : e₁.periph_spiffs_is_mounted = e₂.periph_spiffs_is_mounted := by rw [h]
  have f2 : e₁.portTICK_PERIOD_MS = e₂.portTICK_PERIOD_MS := by rw [h]
  have f3 : e₁.esp_periph_start = e₂.esp_periph_start := by rw [h]
  have hp : ∀ fuel i, mount_poll e₁ fuel i = mount_poll e₂ fuel i := by
    intro fuel
    induction fuel with
    | zero => intro i; rfl
    | succ n ih => intro i; simp only [mount_poll, ih, f1, f2]
  simp only [init_spiffs_user, hp, f3]

/-- Runs of `app_main` in environments that differ at most in the result of
`init_was` make the same progress. -/
theorem app_main_differ (e₁ e₂ : Env) (h : differ_in_init_was e₁ e₂) (fuel : Nat)
    (r₁ r₂ : Run) (h₁ : app_main e₁ fuel = some r₁) (h₂ : app_main e₂ fuel = some r₂) :
    same_progress r₁ r₂ := by
  obtain ⟨sp₁, hsp₁, rfl⟩ := app_main_some e₁ fuel r₁ h₁
  obtain ⟨sp₂, hsp₂, rfl⟩ := app_main_some e₂ fuel r₂ h₂
  rw [spiffs_differ e₁ e₂ h fuel, hsp₂] at hsp₁
  simp only [Option.some.injEq] at hsp₁
  subst hsp₁
  exact same_progress_after _ _ _ (boot_differ e₁ e₂ h)

/-- A run in which the URL has been read got through the store initialisation
and through every credential-store read. -/
theorem conditions_of_url_read (e : Env) (fuel : Nat) (r : Run)
    (h : app_main e fuel = some r)
    (hurl : Event.nvs_get_str "WAS" "URL" 2048 ESP_OK ∈ r.trace) :
    store_ok e ∧ wifi_ok e ∧ was_ok e := by
  obtain ⟨sp, hsp, rfl⟩ := app_main_some e fuel r h
  obtain ⟨-, -, -, -, -, -, s7⟩ := spiffs_facts sp.2 (init_spiffs_user_events e fuel sp hsp)
  have s8 : Event.nvs_get_str "WAS" "URL" 2048 ESP_OK ∉ sp.2 := s7 _ rfl
  rcases boot_scenarios e with ⟨h0, hb⟩ | ⟨h0, h1, h2, hb⟩ | ⟨h0, h1, h2, h3, hb⟩ |
    ⟨hs, hw, h1, hb⟩ | ⟨hs, hw, h1, h2, hb⟩ | ⟨hs, hw, h1, h2, h3, hb⟩ |
    ⟨hs, hwifi, h1, hb⟩ | ⟨hs, hwifi, h1, h2, hb⟩ | ⟨hs, hwifi, hwas, hinv, hb⟩ |
    ⟨hs, hwifi, hwas, hv, hb⟩
  all_goals first
    | exact ⟨hs, hwifi, hwas⟩
    | (exfalso
       rw [hb] at hurl
       revert hurl
       by_cases hnfp : e.nvs_flash_init 0 = ESP_ERR_NVS_NO_FREE_PAGES <;>
       by_cases hld : e.ld = none <;>
       by_cases hwired : e.CONFIG_WILLOW_ETHERNET = true <;>
       simp_all [Run.after, aborted_run, head_events, boot_events, store_events, halt_events,
         net_events] <;>
       intro hx <;> exact h2 hx.symm)

/-- The run of `app_main` when nothing aborts and every read succeeds. -/
theorem run_of_conditions (e : Env) (fuel : Nat) (r : Run) (h : app_main e fuel = some r)
    (hs : store_ok e) (hwifi : wifi_ok e) (hwas : was_ok e) :
    ∃ sp, init_spiffs_user e fuel = some sp ∧
      ((e.config_valid = false ∧ r =
        ⟨head_events ++ sp.2 ++ (boot_events e ++ store_events e ++ net_events e ++
          was_events e ++ [Event.request_config, Event.vTaskDelay Delay.portMAX_DELAY]),
          Outcome.suspended, willow_state.STATE_NVS_OK⟩) ∨
       (e.config_valid = true ∧ r =
        ⟨head_events ++ sp.2 ++ (boot_events e ++ store_events e ++ net_events e ++
          was_events e ++ app_main_tail e), Outcome.diag_loop, willow_state.STATE_NVS_OK⟩)) := by
  obtain ⟨sp, hsp, rfl⟩ := app_main_some e fuel r h
  refine ⟨sp, hsp, ?_⟩
  rcases boot_scenarios e with ⟨h0, hb⟩ | ⟨h0, h1, h2, hb⟩ | ⟨h0, h1, h2, h3, hb⟩ |
    ⟨_, hw, h1, hb⟩ | ⟨_, hw, h1, h2, hb⟩ | ⟨_, hw, h1, h2, h3, hb⟩ |
    ⟨_, _, h1, hb⟩ | ⟨_, _, h1, h2, hb⟩ | ⟨_, _, _, hinv, hb⟩ |
    ⟨_, _, _, hv, hb⟩
  · exact absurd hs.1 h0
  · exact absurd (hs.2 h1).1 h2
  · exact absurd (hs.2 h1).2 h3
  · exact absurd (hwifi hw).1 h1
  · exact absurd (hwifi hw).2.1 h2
  · exact absurd (hwifi hw).2.2 h3
  · exact absurd hwas.1 h1
  · exact absurd hwas.2 h2
  · left; exact ⟨hinv, by rw [hb]; rfl⟩
  · right; exact ⟨hv, by rw [hb]; rfl⟩

theorem stages_append (l₁ l₂ : List Event) : stages (l₁ ++ l₂) = stages l₁ ++ stages l₂ := by
  simp [stages]

theorem stages_head_events :
    stages head_events = [Stage.esp_periph_set_init, Stage.init_system] := by
  simp [stages, head_events, Event.stage]

theorem stages_boot_events (e : Env) :
    stages (boot_events e) =
      [Stage.config_parse, Stage.init_display, Stage.init_lvgl_display, Stage.init_ui,
       Stage.esp_netif_init] := by
  simp [stages, boot_events, Event.stage]

theorem stages_store_events (e : Env) :
    stages (store_events e) =
      if e.nvs_flash_init 0 = ESP_ERR_NVS_NO_FREE_PAGES then
        [Stage.nvs_flash_init, Stage.nvs_flash_init]
      else [Stage.nvs_flash_init] := by
  unfold store_events
  split_ifs <;> simp [stages, Event.stage]

theorem stages_net_events (e : Env) : stages (net_events e) = [Stage.network_bringup] := by
  unfold net_events
  split_ifs <;> simp [stages, Event.stage]

theorem stages_was_events (e : Env) :
    stages (was_events e) = [Stage.url_retrieval, Stage.init_was] := by
  unfold was_events
  split_ifs <;> simp [stages, Event.stage]

theorem stages_halt_events (e : Env) : stages (halt_events e) = [] := by
  unfold halt_events
  split_ifs <;> simp [stages, Event.stage]

theorem later_events_before_tail (e : Env) (l : List Event)
    (hl : ∀ ev ∈ l, ev.is_spiffs_event = true) :
    (head_events ++ l ++ (boot_events e ++ store_events e ++ net_events e ++
      was_events e)).filter Event.is_later_stage = [] := by
  obtain ⟨-, -, -, -, s5, -, -⟩ := spiffs_facts l hl
  by_cases hnfp : e.nvs_flash_init 0 = ESP_ERR_NVS_NO_FREE_PAGES <;>
  by_cases hld : e.ld = none <;>
  by_cases hwired : e.CONFIG_WILLOW_ETHERNET = true <;>
  by_cases hiw : e.init_was = ESP_OK <;>
  simp [head_events, boot_events, store_events, net_events, was_events, s5, hnfp, hld,
    hwired, hiw, List.filter_cons, Event.is_later_stage]

/-- C3: failure of `init_was` is not fatal.  When the credential-store reads
succeed, the run in which `init_was` returns an error code calls `init_was`, logs
the failure, and then goes through exactly the same stages in the same order,
makes the same calls after the label `err_nvs` and ends at the same control
point as the run that differs only in `init_was` returning `ESP_OK`; with a
valid configuration both runs go from `init_was` through `init_sntp`, endpoint
selection, `init_buttons`, `init_input_key_service`, `init_audio`,
`init_lvgl_touch`, `init_display_timer` into the diagnostics loop. -/
theorem C3_init_was_failure_not_fatal (e : Env) (code : esp_err_t) (fuel : Nat)
    (r₁ r₂ : Run) (hcode : code ≠ ESP_OK)
    (h₁ : app_main { e with init_was := code } fuel = some r₁)
    (h₂ : app_main { e with init_was := ESP_OK } fuel = some r₂)
    (hreads : ∀ ev ∈ successful_reads e, ev ∈ r₁.trace) :
    Event.init_was code ∈ r₁.trace ∧
    Event.ESP_LOGE "failed to initialize Willow Application Server connection" [] ∈ r₁.trace ∧
    Event.init_was ESP_OK ∈ r₂.trace ∧
    stages r₁.trace = stages r₂.trace ∧
    r₁.trace.filter Event.is_later_stage = r₂.trace.filter Event.is_later_stage ∧
    r₁.outcome = r₂.outcome ∧
    (e.config_valid = true →
      r₁.outcome = Outcome.diag_loop ∧ r₂.outcome = Outcome.diag_loop ∧
      r₁.trace.filter Event.is_later_stage = (app_main_tail e).filter Event.is_later_stage ∧
      ∃ pre, stages r₁.trace = pre ++
        [Stage.init_was, Stage.init_sntp, Stage.endpoint_selection, Stage.init_buttons,
         Stage.init_input_key_service, Stage.init_audio, Stage.init_lvgl_touch,
         Stage.init_display_timer, Stage.mark_app_valid, Stage.reset_timer]) := by
  have hd : differ_in_init_was { e with init_was := code } { e with init_was := ESP_OK } := rfl
  obtain ⟨p1, p2, p3, -⟩ := app_main_differ _ _ hd fuel r₁ r₂ h₁ h₂
  have hurl : Event.nvs_get_str "WAS" "URL" 2048 ESP_OK ∈ r₁.trace :=
    hreads _ (url_read_mem_successful_reads e)
  obtain ⟨hs, hwifi, hwas⟩ := conditions_of_url_read _ fuel r₁ h₁ hurl
  obtain ⟨sp₁, hsp₁, hr₁⟩ := run_of_conditions _ fuel r₁ h₁ hs hwifi hwas
  obtain ⟨sp₂, hsp₂, hr₂⟩ := run_of_conditions _ fuel r₂ h₂ hs hwifi hwas
  have hev₁ := init_spiffs_user_events _ fuel sp₁ hsp₁
  have hst₁ := init_spiffs_user_stages _ fuel sp₁ hsp₁
  have m1 : Event.init_was code ∈ r₁.trace := by
    rcases hr₁ with ⟨-, rfl⟩ | ⟨-, rfl⟩ <;> simp [was_events]
  have m2 : Event.ESP_LOGE "failed to initialize Willow Application Server connection" []
      ∈ r₁.trace := by
    rcases hr₁ with ⟨-, rfl⟩ | ⟨-, rfl⟩ <;> simp [was_events, hcode]
  have m3 : Event.init_was ESP_OK ∈ r₂.trace := by
    rcases hr₂ with ⟨-, rfl⟩ | ⟨-, rfl⟩ <;> simp [was_events]
  refine ⟨m1, m2, m3, p1, p2, p3, fun hv => ?_⟩
  have hv' : ({ e with init_was := code } : Env).config_valid = true := hv
  rcases hr₁ with ⟨hinv, -⟩ | ⟨-, hr₁⟩
  · rw [hv'] at hinv; exact absurd hinv (by simp)
  · have ho : r₁.outcome = Outcome.diag_loop := by rw [hr₁]
    refine ⟨ho, by rw [← p3]; exact ho, ?_, ?_⟩
    · rw [hr₁]
      have := later_events_before_tail { e with init_was := code } sp₁.2 hev₁
      simp only [← List.append_assoc] at this ⊢
      rw [List.filter_append, this]
      rfl
    · refine ⟨stages (head_events ++ sp₁.2 ++ (boot_events e ++ store_events e ++
        net_events e)) ++ [Stage.url_retrieval], ?_⟩
      rw [hr₁]
      simp only [stages_append, stages_was_events, stages_app_main_tail, List.append_assoc]
      rfl

theorem C3_witness :
    ESP_FAIL ≠ ESP_OK ∧
    app_main { env_ok with init_was := ESP_FAIL } 2 = some (the_run env_was_fail 2) ∧
    app_main { env_ok with init_was := ESP_OK } 2 = some (the_run env_ok 2) ∧
    (∀ ev ∈ successful_reads env_ok, ev ∈ (the_run env_was_fail 2).trace) ∧
    stages (the_run env_was_fail 2).trace = stages (the_run env_ok 2).trace ∧
    (the_run env_was_fail 2).outcome = Outcome.diag_loop :=
  ⟨by decide, rfl, rfl, by decide,
    (C3_init_was_failure_not_fatal env_ok ESP_FAIL 2 (the_run env_was_fail 2)
      (the_run env_ok 2) (by decide) rfl rfl (by decide)).2.2.2.1,
    ((C3_init_was_failure_not_fatal env_ok ESP_FAIL 2 (the_run env_was_fail 2)
      (the_run env_ok 2) (by decide) rfl rfl (by decide)).2.2.2.2.2.2 rfl).1⟩

end Willow
